import Mathlib

/-!
Shallow embedding of `dragonfly/world/provider.go`: the `Provider` persistence
contract and its no-op implementation `NoIOProvider`.

Go conventions are embedded as follows: a nil pointer or nil error is `none`,
a nil slice is the empty list, the multi-value return of `LoadChunk` is a
tuple `Option Chunk × Bool × Option Err`, and Go's `int64` time is `Int`
(the only value produced by this code is the literal 0, so no wrap-around
arises). `NoIOProvider` is an empty struct with value receivers, so it is
embedded as a field-less structure and every method is a pure function of
the receiver and its arguments.
-/

namespace Dragonfly

/-- The external opaque chunk payload `chunk.Chunk` (out of scope for this
core); embedded as a token with decidable equality, since the provider only
passes it through. -/
structure Chunk where
  tag : Nat
deriving DecidableEq, Repr

/-- The external opaque entity object `world.Entity`; embedded as a token. -/
structure Entity where
  tag : Nat
deriving DecidableEq, Repr

/-- Modelled from the spec: the `gamemode` package is not under `src/`; the
spec describes the game mode as a closed enumeration of variants
(Survival, Creative, Adventure, Spectator). -/
inductive GameMode where
  | Survival
  | Creative
  | Adventure
  | Spectator
deriving DecidableEq, Repr

/-- Modelled from the spec: `BlockPos` is defined elsewhere in the `world`
package (not under `src/`); the spec describes it as a 3D integer point. -/
structure BlockPos where
  x : Int
  y : Int
  z : Int
deriving DecidableEq, Repr

/-- Modelled from the spec: `ChunkPos` is defined elsewhere in the `world`
package (not under `src/`); the spec describes it as an integer pair (x, z). -/
structure ChunkPos where
  x : Int
  z : Int
deriving DecidableEq, Repr

/-- A Go error value; a nil error is `none : Option Err`. -/
abbrev Err := String

/-- The type `NoIOProvider` implements a `Provider` while not performing any disk I/O
(`type NoIOProvider struct{}`): an empty struct, hence a field-less
structure. -/
structure NoIOProvider where
deriving DecidableEq, Repr

/-- Source: `func (p NoIOProvider) DefaultGameMode() gamemode.GameMode { return gamemode.Adventure{} }` -/
def NoIOProvider.DefaultGameMode (_ : NoIOProvider) : GameMode :=
  GameMode.Adventure

/-- Source: `func (p NoIOProvider) SetDefaultGameMode(mode gamemode.GameMode) {}` -/
def NoIOProvider.SetDefaultGameMode (_ : NoIOProvider) (_ : GameMode) : Unit :=
  ()

/-- Source: `func (p NoIOProvider) SetWorldSpawn(pos BlockPos) {}` -/
def NoIOProvider.SetWorldSpawn (_ : NoIOProvider) (_ : BlockPos) : Unit :=
  ()

/-- Source: `func (p NoIOProvider) SaveTimeCycle(running bool) {}` -/
def NoIOProvider.SaveTimeCycle (_ : NoIOProvider) (_ : Bool) : Unit :=
  ()

/-- Source: `func (p NoIOProvider) LoadTimeCycle() bool { return true }` -/
def NoIOProvider.LoadTimeCycle (_ : NoIOProvider) : Bool :=
  true

/-- Source: `func (p NoIOProvider) LoadTime() int64 { return 0 }` -/
def NoIOProvider.LoadTime (_ : NoIOProvider) : Int :=
  0

/-- Source: `func (p NoIOProvider) SaveTime(time int64) {}` -/
def NoIOProvider.SaveTime (_ : NoIOProvider) (_ : Int) : Unit :=
  ()

/-- Source: `func (p NoIOProvider) LoadEntities(position ChunkPos) ([]Entity, error) { return nil, nil }`
(a nil slice is the empty list, a nil error is `none`). -/
def NoIOProvider.LoadEntities (_ : NoIOProvider) (_ : ChunkPos) :
    List Entity × Option Err :=
  ([], none)

/-- Source: `func (p NoIOProvider) SaveEntities(position ChunkPos, entities []Entity) error { return nil }` -/
def NoIOProvider.SaveEntities (_ : NoIOProvider) (_ : ChunkPos)
    (_ : List Entity) : Option Err :=
  none

/-- Source: `func (p NoIOProvider) SaveChunk(position ChunkPos, c *chunk.Chunk) error { return nil }`
(the `*chunk.Chunk` pointer argument may be nil, hence `Option Chunk`). -/
def NoIOProvider.SaveChunk (_ : NoIOProvider) (_ : ChunkPos)
    (_ : Option Chunk) : Option Err :=
  none

/-- Source: `func (p NoIOProvider) LoadChunk(position ChunkPos) (*chunk.Chunk, bool, error) { return nil, false, nil }` -/
def NoIOProvider.LoadChunk (_ : NoIOProvider) (_ : ChunkPos) :
    Option Chunk × Bool × Option Err :=
  (none, false, none)

/-- Source: `func (p NoIOProvider) WorldName() string { return "" }` -/
def NoIOProvider.WorldName (_ : NoIOProvider) : String :=
  ""

/-- Source: `func (p NoIOProvider) SetWorldName(name string) {}` -/
def NoIOProvider.SetWorldName (_ : NoIOProvider) (_ : String) : Unit :=
  ()

/-- Source: `func (p NoIOProvider) WorldSpawn() BlockPos { return BlockPos\x7b0, 30, 0\x7d }` -/
def NoIOProvider.WorldSpawn (_ : NoIOProvider) : BlockPos :=
  ⟨0, 30, 0⟩

/-- Source: `func (p NoIOProvider) Close() error { return nil }` -/
def NoIOProvider.Close (_ : NoIOProvider) : Option Err :=
  none

/-- The three permitted states of a `LoadChunk` result, as documented on
`Provider.LoadChunk`: (a) non-nil chunk, exists true, nil error;
(b) nil chunk, exists false, nil error; (c) nil chunk, exists true,
non-nil error. -/
def permittedLoadChunkResult : Option Chunk × Bool × Option Err → Bool
  | (some _, true, none) => true
  | (none, false, none) => true
  | (none, true, some _) => true
  | _ => false

/-- One call in a provider history: each constructor is one `Provider`
operation with its arguments. -/
inductive Op where
  | defaultGameMode
  | setDefaultGameMode (m : GameMode)
  | setWorldSpawn (pos : BlockPos)
  | saveTimeCycle (running : Bool)
  | loadTimeCycle
  | loadTime
  | saveTime (t : Int)
  | loadEntities (p : ChunkPos)
  | saveEntities (p : ChunkPos) (es : List Entity)
  | saveChunk (p : ChunkPos) (c : Option Chunk)
  | loadChunk (p : ChunkPos)
  | worldName
  | setWorldName (n : String)
  | worldSpawn
  | close
deriving DecidableEq, Repr

/-- The value an operation returns to the caller. -/
inductive Output where
  | gameMode (m : GameMode)
  | unitResult (u : Unit)
  | flag (b : Bool)
  | time (t : Int)
  | entities (es : List Entity) (e : Option Err)
  | errResult (e : Option Err)
  | chunkResult (c : Option Chunk) (ex : Bool) (e : Option Err)
  | str (s : String)
  | pos (bp : BlockPos)
deriving DecidableEq, Repr

/-- Dispatch one operation to the corresponding `NoIOProvider` method.
Value receivers cannot mutate the (field-less) receiver, so the provider
after the call is the receiver itself. -/
def NoIOProvider.runOp (prov : NoIOProvider) : Op → NoIOProvider × Output
  | Op.defaultGameMode => (prov, Output.gameMode prov.DefaultGameMode)
  | Op.setDefaultGameMode m => (prov, Output.unitResult (prov.SetDefaultGameMode m))
  | Op.setWorldSpawn pos => (prov, Output.unitResult (prov.SetWorldSpawn pos))
  | Op.saveTimeCycle running => (prov, Output.unitResult (prov.SaveTimeCycle running))
  | Op.loadTimeCycle => (prov, Output.flag prov.LoadTimeCycle)
  | Op.loadTime => (prov, Output.time prov.LoadTime)
  | Op.saveTime t => (prov, Output.unitResult (prov.SaveTime t))
  | Op.loadEntities p => (prov, Output.entities (prov.LoadEntities p).1 (prov.LoadEntities p).2)
  | Op.saveEntities p es => (prov, Output.errResult (prov.SaveEntities p es))
  | Op.saveChunk p c => (prov, Output.errResult (prov.SaveChunk p c))
  | Op.loadChunk p =>
      (prov, Output.chunkResult (prov.LoadChunk p).1 (prov.LoadChunk p).2.1
        (prov.LoadChunk p).2.2)
  | Op.worldName => (prov, Output.str prov.WorldName)
  | Op.setWorldName n => (prov, Output.unitResult (prov.SetWorldName n))
  | Op.worldSpawn => (prov, Output.pos prov.WorldSpawn)
  | Op.close => (prov, Output.errResult prov.Close)

/-- Run a whole history of operations, returning the resulting provider. -/
def NoIOProvider.runTrace (prov : NoIOProvider) : List Op → NoIOProvider
  | [] => prov
  | o :: rest => ((prov.runOp o).1).runTrace rest

/-- The outputs of a history of operations, in order. -/
def NoIOProvider.runOutputs (prov : NoIOProvider) : List Op → List Output
  | [] => []
  | o :: rest => (prov.runOp o).2 :: ((prov.runOp o).1).runOutputs rest

/-- The result an operation returns when called after a given history. -/
def outputAfter (prov : NoIOProvider) (t : List Op) (o : Op) : Output :=
  ((prov.runTrace t).runOp o).2

/-- The save operations of the contract: SaveChunk, SaveEntities, SaveTime,
SaveTimeCycle, SetWorldSpawn, SetWorldName, SetDefaultGameMode. -/
def isSaveOp : Op → Bool
  | Op.saveChunk _ _ => true
  | Op.saveEntities _ _ => true
  | Op.saveTime _ => true
  | Op.saveTimeCycle _ => true
  | Op.setWorldSpawn _ => true
  | Op.setWorldName _ => true
  | Op.setDefaultGameMode _ => true
  | _ => false

/-- The load operations of the contract: LoadChunk, LoadEntities, LoadTime,
LoadTimeCycle, WorldSpawn, WorldName, DefaultGameMode. -/
def isLoadOp : Op → Bool
  | Op.loadChunk _ => true
  | Op.loadEntities _ => true
  | Op.loadTime => true
  | Op.loadTimeCycle => true
  | Op.worldSpawn => true
  | Op.worldName => true
  | Op.defaultGameMode => true
  | _ => false

/-- Claim C1: for every chunk position, `NoIOProvider.LoadChunk` returns a nil
chunk, exists=false and a nil error (the not-found outcome, case b),
regardless of any prior history of operations — in particular regardless of
prior `SaveChunk` calls on that position. -/
theorem noio_loadChunk_always_notFound (prov : NoIOProvider) (p : ChunkPos)
    (t : List Op) :
    prov.LoadChunk p = (none, false, none) ∧
      outputAfter prov t (Op.loadChunk p) = Output.chunkResult none false none :=
  ⟨rfl, rfl⟩

/-- Claim C2: for every chunk position, the result of `NoIOProvider.LoadChunk`
is one of exactly the three permitted tri-states; in particular it never
returns a non-nil chunk together with a non-nil error. -/
theorem noio_loadChunk_permitted (prov : NoIOProvider) (p : ChunkPos) :
    permittedLoadChunkResult (prov.LoadChunk p) = true ∧
      ((prov.LoadChunk p).1.isSome && (prov.LoadChunk p).2.2.isSome) = false :=
  ⟨rfl, rfl⟩

/-- Claim C3: for the `NoIOProvider` backend, every save operation (SaveChunk,
SaveEntities, SaveTime, SaveTimeCycle, SetWorldSpawn, SetWorldName,
SetDefaultGameMode) followed by any load operation yields the same result as
if the save had never occurred. -/
theorem noio_save_then_load_noop (prov : NoIOProvider) (s l : Op)
    (hs : isSaveOp s = true) (hl : isLoadOp l = true) :
    outputAfter prov [s] l = outputAfter prov [] l := by
  cases s <;> cases l <;> rfl

/-- Witness for C3: a concrete `SaveChunk` followed by a `LoadChunk` at the
same position yields the same result as the load with no save before it. -/
theorem noio_save_then_load_noop_witness :
    outputAfter NoIOProvider.mk [Op.saveChunk ⟨0, 0⟩ (some ⟨1⟩)]
        (Op.loadChunk ⟨0, 0⟩) =
      outputAfter NoIOProvider.mk [] (Op.loadChunk ⟨0, 0⟩) :=
  noio_save_then_load_noop NoIOProvider.mk (Op.saveChunk ⟨0, 0⟩ (some ⟨1⟩))
    (Op.loadChunk ⟨0, 0⟩) rfl rfl

/-- Counterexample for C4: at the concrete position (3, -2) and a concrete
chunk, `SaveChunk` followed by `LoadChunk` does NOT return that chunk with
exists=true and a nil error — `NoIOProvider.LoadChunk` always reports
not-found. -/
theorem noio_roundtrip_cex :
    ¬ (outputAfter NoIOProvider.mk [Op.saveChunk ⟨3, -2⟩ (some ⟨7⟩)]
          (Op.loadChunk ⟨3, -2⟩) =
        Output.chunkResult (some ⟨7⟩) true none) := by
  decide

/-- Claim C4 (amended): for every chunk c and position p, `SaveChunk(p, c)` on
`NoIOProvider` returns a nil error but the save is discarded: the subsequent
`LoadChunk(p)` returns a nil chunk, exists=false and a nil error. -/
theorem noio_roundtrip_amended (prov : NoIOProvider) (p : ChunkPos) (c : Chunk) :
    prov.SaveChunk p (some c) = none ∧
      outputAfter prov [Op.saveChunk p (some c)] (Op.loadChunk p) =
        Output.chunkResult none false none :=
  ⟨rfl, rfl⟩

/-- Claim C5: for every chunk position, `NoIOProvider.LoadEntities` returns an
empty entity list together with a nil error, and `NoIOProvider.SaveEntities`
returns a nil error for every position and entity list. -/
theorem noio_entities_defaults (prov : NoIOProvider) (p : ChunkPos)
    (es : List Entity) :
    prov.LoadEntities p = ([], none) ∧ prov.SaveEntities p es = none :=
  ⟨rfl, rfl⟩

/-- Claim C6: the metadata loads of `NoIOProvider` return the fixed defaults:
`LoadTimeCycle` returns true, `LoadTime` returns 0, `WorldSpawn` has a
y-coordinate strictly greater than 0, and `DefaultGameMode` returns the
Adventure game mode. -/
theorem noio_metadata_defaults (prov : NoIOProvider) :
    prov.LoadTimeCycle = true ∧ prov.LoadTime = 0 ∧
      0 < (prov.WorldSpawn).y ∧ prov.DefaultGameMode = GameMode.Adventure :=
  ⟨rfl, rfl, (by decide : (0 : Int) < 30), rfl⟩

/-- Claim C7: `NoIOProvider.Close` always returns a nil error, and calling it
any number of times in a row returns a nil error every time. -/
theorem noio_close_always_nil (prov : NoIOProvider) (n : Nat) :
    prov.Close = none ∧
      prov.runOutputs (List.replicate n Op.close) =
        List.replicate n (Output.errResult none) := by
  refine ⟨rfl, ?_⟩
  induction n with
  | zero => rfl
  | succ k ih =>
    rw [List.replicate_succ, List.replicate_succ]
    exact congrArg (List.cons (Output.errResult none)) ih

/-- Claim C8: every `NoIOProvider` operation is deterministic and
history-independent: the result of any operation is the same after any two
prior histories of operations, in any order. -/
theorem noio_history_independent (prov : NoIOProvider) (t1 t2 : List Op)
    (o : Op) :
    outputAfter prov t1 o = outputAfter prov t2 o := by
  cases o <;> rfl

/-- Claim C9: `NoIOProvider.WorldSpawn` returns exactly the block position
(0, 30, 0). -/
theorem noio_worldSpawn_value (prov : NoIOProvider) :
    prov.WorldSpawn = (⟨0, 30, 0⟩ : BlockPos) :=
  rfl

/-- Claim C10: `NoIOProvider.WorldName` always returns the empty string,
including after any history of operations (in particular after any
`SetWorldName` call). -/
theorem noio_worldName_empty (prov : NoIOProvider) (t : List Op) :
    prov.WorldName = "" ∧ outputAfter prov t Op.worldName = Output.str "" :=
  ⟨rfl, rfl⟩

end Dragonfly
